import Mathlib

/-!
Verification of the pixel-format and color module of the sdl3 bindings
(src/sdl3/pixels.rs) against its specification.

Modelling conventions:
* Machine integers are modelled as `Nat`/`Int` (`u8` as `Fin 256`,
  `usize` as `Nat`, `c_int`/`i64` as `Int` with explicit range checks
  where the code performs one).
* A Rust panic is modelled as `none` in an `Option` result; a Rust
  `Result<T, Error>` is modelled as `Except String T`.
* The numeric pixel-format codes come from the external SDL3 standard
  (via the sdl3-sys bindings); the development only relies on these
  being the distinct values the source code matches on.
* Boundary functions that live outside the translated file
  (`validate_int` from the common module, and the native palette
  operations) are modelled from the specification; their doc comments
  say so explicitly.
-/

namespace SDL3

/-! ### The external pixel-format codes (SDL_PixelFormat) -/

namespace SDL_PixelFormat

def UNKNOWN : Int := 0x00000000

def INDEX1LSB : Int := 0x11100100

def INDEX1MSB : Int := 0x11200100

def INDEX4LSB : Int := 0x12100400

def INDEX4MSB : Int := 0x12200400

def INDEX8 : Int := 0x13000801

def RGB332 : Int := 0x14110801

def XRGB4444 : Int := 0x15120c02

def XBGR4444 : Int := 0x15520c02

def XRGB1555 : Int := 0x15130f02

def XBGR1555 : Int := 0x15530f02

def ARGB4444 : Int := 0x15321002

def RGBA4444 : Int := 0x15421002

def ABGR4444 : Int := 0x15721002

def BGRA4444 : Int := 0x15821002

def ARGB1555 : Int := 0x15331002

def RGBA5551 : Int := 0x15441002

def ABGR1555 : Int := 0x15731002

def BGRA5551 : Int := 0x15841002

def RGB565 : Int := 0x15151002

def BGR565 : Int := 0x15551002

def RGB24 : Int := 0x17101803

def BGR24 : Int := 0x17401803

def XRGB8888 : Int := 0x16161804

def RGBX8888 : Int := 0x16261804

def XBGR8888 : Int := 0x16561804

def BGRX8888 : Int := 0x16661804

def ARGB8888 : Int := 0x16362004

def RGBA8888 : Int := 0x16462004

def ABGR8888 : Int := 0x16762004

def BGRA8888 : Int := 0x16862004

def ARGB2101010 : Int := 0x16372004

def YV12 : Int := 0x32315659

def IYUV : Int := 0x56555949

def YUY2 : Int := 0x32595559

def UYVY : Int := 0x59565955

def YVYU : Int := 0x55595659

end SDL_PixelFormat

/-- `pub struct PixelFormat { raw: SDL_PixelFormat }`: a wrapper around the
raw numeric format code (a `c_int` newtype on the Rust side). -/
structure PixelFormat where
  raw : Int
deriving DecidableEq, Repr

/-- `pub enum PixelFormatEnum`: the closed set of named formats.  The six
alias names (RGB444, BGR444, RGB555, BGR555, RGB888, BGR888) are declared
in the source with the same discriminant as their canonical variant; here
they are separate constructors whose `code` coincides with the canonical
one. -/
inductive PixelFormatEnum where
  | Unknown
  | Index1LSB
  | Index1MSB
  | Index4LSB
  | Index4MSB
  | Index8
  | RGB332
  | XRGB4444
  | RGB444
  | XBGR4444
  | BGR444
  | XRGB1555
  | RGB555
  | XBGR1555
  | BGR555
  | ARGB4444
  | RGBA4444
  | ABGR4444
  | BGRA4444
  | ARGB1555
  | RGBA5551
  | ABGR1555
  | BGRA5551
  | RGB565
  | BGR565
  | RGB24
  | BGR24
  | XRGB8888
  | RGB888
  | RGBX8888
  | XBGR8888
  | BGR888
  | BGRX8888
  | ARGB8888
  | RGBA8888
  | ABGR8888
  | BGRA8888
  | ARGB2101010
  | YV12
  | IYUV
  | YUY2
  | UYVY
  | YVYU
deriving DecidableEq, Repr

/-- The numeric discriminant of each `PixelFormatEnum` variant, as declared
in the source (`Variant = SDL_PixelFormat::VARIANT.0 as isize`, with the
alias variants sharing the canonical discriminant). -/
def PixelFormatEnum.code : PixelFormatEnum → Int
  | .Unknown => SDL_PixelFormat.UNKNOWN
  | .Index1LSB => SDL_PixelFormat.INDEX1LSB
  | .Index1MSB => SDL_PixelFormat.INDEX1MSB
  | .Index4LSB => SDL_PixelFormat.INDEX4LSB
  | .Index4MSB => SDL_PixelFormat.INDEX4MSB
  | .Index8 => SDL_PixelFormat.INDEX8
  | .RGB332 => SDL_PixelFormat.RGB332
  | .XRGB4444 => SDL_PixelFormat.XRGB4444
  | .RGB444 => SDL_PixelFormat.XRGB4444
  | .XBGR4444 => SDL_PixelFormat.XBGR4444
  | .BGR444 => SDL_PixelFormat.XBGR4444
  | .XRGB1555 => SDL_PixelFormat.XRGB1555
  | .RGB555 => SDL_PixelFormat.XRGB1555
  | .XBGR1555 => SDL_PixelFormat.XBGR1555
  | .BGR555 => SDL_PixelFormat.XBGR1555
  | .ARGB4444 => SDL_PixelFormat.ARGB4444
  | .RGBA4444 => SDL_PixelFormat.RGBA4444
  | .ABGR4444 => SDL_PixelFormat.ABGR4444
  | .BGRA4444 => SDL_PixelFormat.BGRA4444
  | .ARGB1555 => SDL_PixelFormat.ARGB1555
  | .RGBA5551 => SDL_PixelFormat.RGBA5551
  | .ABGR1555 => SDL_PixelFormat.ABGR1555
  | .BGRA5551 => SDL_PixelFormat.BGRA5551
  | .RGB565 => SDL_PixelFormat.RGB565
  | .BGR565 => SDL_PixelFormat.BGR565
  | .RGB24 => SDL_PixelFormat.RGB24
  | .BGR24 => SDL_PixelFormat.BGR24
  | .XRGB8888 => SDL_PixelFormat.XRGB8888
  | .RGB888 => SDL_PixelFormat.XRGB8888
  | .RGBX8888 => SDL_PixelFormat.RGBX8888
  | .XBGR8888 => SDL_PixelFormat.XBGR8888
  | .BGR888 => SDL_PixelFormat.XBGR8888
  | .BGRX8888 => SDL_PixelFormat.BGRX8888
  | .ARGB8888 => SDL_PixelFormat.ARGB8888
  | .RGBA8888 => SDL_PixelFormat.RGBA8888
  | .ABGR8888 => SDL_PixelFormat.ABGR8888
  | .BGRA8888 => SDL_PixelFormat.BGRA8888
  | .ARGB2101010 => SDL_PixelFormat.ARGB2101010
  | .YV12 => SDL_PixelFormat.YV12
  | .IYUV => SDL_PixelFormat.IYUV
  | .YUY2 => SDL_PixelFormat.YUY2
  | .UYVY => SDL_PixelFormat.UYVY
  | .YVYU => SDL_PixelFormat.YVYU

/-- `PixelFormatEnum::as_pixel_format`: wraps the variant's numeric code
(`PixelFormat { raw: SDL_PixelFormat(*self as i32) }`). -/
def PixelFormatEnum.as_pixel_format (self : PixelFormatEnum) : PixelFormat :=
  ⟨self.code⟩

/-- `PixelFormat::byte_size_from_pitch_and_height`.  The YUV arm is the
source expression `pitch * height + 2 * (pitch / 2 * height / 2)`, which
both Rust and Lean evaluate left to right. -/
def PixelFormat.byte_size_from_pitch_and_height (self : PixelFormat)
    (pitch height : Nat) : Nat :=
  if self.raw = SDL_PixelFormat.YV12 ∨ self.raw = SDL_PixelFormat.IYUV then
    pitch * height + 2 * (pitch / 2 * height / 2)
  else
    pitch * height

/-- `PixelFormat::byte_size_of_pixels`.  The `panic!` arm for the formats
the table leaves unsupported is modelled as `none`. -/
def PixelFormat.byte_size_of_pixels (self : PixelFormat)
    (num_of_pixels : Nat) : Option Nat :=
  if self.raw = SDL_PixelFormat.RGB332 then
    some num_of_pixels
  else if self.raw = SDL_PixelFormat.XRGB4444
      ∨ self.raw = SDL_PixelFormat.XRGB1555
      ∨ self.raw = SDL_PixelFormat.XBGR1555
      ∨ self.raw = SDL_PixelFormat.ARGB4444
      ∨ self.raw = SDL_PixelFormat.RGBA4444
      ∨ self.raw = SDL_PixelFormat.ABGR4444
      ∨ self.raw = SDL_PixelFormat.BGRA4444
      ∨ self.raw = SDL_PixelFormat.ARGB1555
      ∨ self.raw = SDL_PixelFormat.RGBA5551
      ∨ self.raw = SDL_PixelFormat.ABGR1555
      ∨ self.raw = SDL_PixelFormat.BGRA5551
      ∨ self.raw = SDL_PixelFormat.RGB565
      ∨ self.raw = SDL_PixelFormat.BGR565 then
    some (num_of_pixels * 2)
  else if self.raw = SDL_PixelFormat.RGB24 ∨ self.raw = SDL_PixelFormat.BGR24 then
    some (num_of_pixels * 3)
  else if self.raw = SDL_PixelFormat.XRGB8888
      ∨ self.raw = SDL_PixelFormat.RGBX8888
      ∨ self.raw = SDL_PixelFormat.XBGR8888
      ∨ self.raw = SDL_PixelFormat.BGRX8888
      ∨ self.raw = SDL_PixelFormat.ARGB8888
      ∨ self.raw = SDL_PixelFormat.RGBA8888
      ∨ self.raw = SDL_PixelFormat.ABGR8888
      ∨ self.raw = SDL_PixelFormat.BGRA8888
      ∨ self.raw = SDL_PixelFormat.ARGB2101010 then
    some (num_of_pixels * 4)
  else if self.raw = SDL_PixelFormat.YV12 ∨ self.raw = SDL_PixelFormat.IYUV then
    some (num_of_pixels / 2 * 3)
  else if self.raw = SDL_PixelFormat.YUY2
      ∨ self.raw = SDL_PixelFormat.UYVY
      ∨ self.raw = SDL_PixelFormat.YVYU then
    some (num_of_pixels * 2)
  else if self.raw = SDL_PixelFormat.INDEX8 then
    some num_of_pixels
  else
    none

/-- `PixelFormat::byte_size_per_pixel`, same table collapsed to one pixel;
the `panic!` arm is `none`. -/
def PixelFormat.byte_size_per_pixel (self : PixelFormat) : Option Nat :=
  if self.raw = SDL_PixelFormat.RGB332 then
    some 1
  else if self.raw = SDL_PixelFormat.XRGB4444
      ∨ self.raw = SDL_PixelFormat.XRGB1555
      ∨ self.raw = SDL_PixelFormat.XBGR1555
      ∨ self.raw = SDL_PixelFormat.ARGB4444
      ∨ self.raw = SDL_PixelFormat.RGBA4444
      ∨ self.raw = SDL_PixelFormat.ABGR4444
      ∨ self.raw = SDL_PixelFormat.BGRA4444
      ∨ self.raw = SDL_PixelFormat.ARGB1555
      ∨ self.raw = SDL_PixelFormat.RGBA5551
      ∨ self.raw = SDL_PixelFormat.ABGR1555
      ∨ self.raw = SDL_PixelFormat.BGRA5551
      ∨ self.raw = SDL_PixelFormat.RGB565
      ∨ self.raw = SDL_PixelFormat.BGR565 then
    some 2
  else if self.raw = SDL_PixelFormat.RGB24 ∨ self.raw = SDL_PixelFormat.BGR24 then
    some 3
  else if self.raw = SDL_PixelFormat.XRGB8888
      ∨ self.raw = SDL_PixelFormat.RGBX8888
      ∨ self.raw = SDL_PixelFormat.XBGR8888
      ∨ self.raw = SDL_PixelFormat.BGRX8888
      ∨ self.raw = SDL_PixelFormat.ARGB8888
      ∨ self.raw = SDL_PixelFormat.RGBA8888
      ∨ self.raw = SDL_PixelFormat.ABGR8888
      ∨ self.raw = SDL_PixelFormat.BGRA8888
      ∨ self.raw = SDL_PixelFormat.ARGB2101010 then
    some 4
  else if self.raw = SDL_PixelFormat.YV12 ∨ self.raw = SDL_PixelFormat.IYUV then
    some 1
  else if self.raw = SDL_PixelFormat.YUY2
      ∨ self.raw = SDL_PixelFormat.UYVY
      ∨ self.raw = SDL_PixelFormat.YVYU then
    some 2
  else if self.raw = SDL_PixelFormat.INDEX8 then
    some 1
  else
    none

/-- `PixelFormat::supports_alpha`: the `matches!` list from the source. -/
def PixelFormat.supports_alpha (self : PixelFormat) : Bool :=
  self.raw = SDL_PixelFormat.ARGB4444
    ∨ self.raw = SDL_PixelFormat.ARGB1555
    ∨ self.raw = SDL_PixelFormat.ARGB8888
    ∨ self.raw = SDL_PixelFormat.ARGB2101010
    ∨ self.raw = SDL_PixelFormat.ABGR4444
    ∨ self.raw = SDL_PixelFormat.ABGR1555
    ∨ self.raw = SDL_PixelFormat.ABGR8888
    ∨ self.raw = SDL_PixelFormat.BGRA4444
    ∨ self.raw = SDL_PixelFormat.BGRA5551
    ∨ self.raw = SDL_PixelFormat.BGRA8888
    ∨ self.raw = SDL_PixelFormat.RGBA4444
    ∨ self.raw = SDL_PixelFormat.RGBA5551
    ∨ self.raw = SDL_PixelFormat.RGBA8888

/-- `TryFrom<PixelFormat> for PixelFormatEnum`: matches the raw code
against every recognized constant, in source order, and yields the
canonical variant; any other code is an error. -/
def PixelFormatEnum.try_from (value : PixelFormat) : Except String PixelFormatEnum :=
  if value.raw = SDL_PixelFormat.UNKNOWN then .ok .Unknown
  else if value.raw = SDL_PixelFormat.INDEX1LSB then .ok .Index1LSB
  else if value.raw = SDL_PixelFormat.INDEX1MSB then .ok .Index1MSB
  else if value.raw = SDL_PixelFormat.INDEX4LSB then .ok .Index4LSB
  else if value.raw = SDL_PixelFormat.INDEX4MSB then .ok .Index4MSB
  else if value.raw = SDL_PixelFormat.INDEX8 then .ok .Index8
  else if value.raw = SDL_PixelFormat.RGB332 then .ok .RGB332
  else if value.raw = SDL_PixelFormat.XRGB4444 then .ok .XRGB4444
  else if value.raw = SDL_PixelFormat.XBGR4444 then .ok .XBGR4444
  else if value.raw = SDL_PixelFormat.XRGB1555 then .ok .XRGB1555
  else if value.raw = SDL_PixelFormat.XBGR1555 then .ok .XBGR1555
  else if value.raw = SDL_PixelFormat.ARGB4444 then .ok .ARGB4444
  else if value.raw = SDL_PixelFormat.RGBA4444 then .ok .RGBA4444
  else if value.raw = SDL_PixelFormat.ABGR4444 then .ok .ABGR4444
  else if value.raw = SDL_PixelFormat.BGRA4444 then .ok .BGRA4444
  else if value.raw = SDL_PixelFormat.ARGB1555 then .ok .ARGB1555
  else if value.raw = SDL_PixelFormat.RGBA5551 then .ok .RGBA5551
  else if value.raw = SDL_PixelFormat.ABGR1555 then .ok .ABGR1555
  else if value.raw = SDL_PixelFormat.BGRA5551 then .ok .BGRA5551
  else if value.raw = SDL_PixelFormat.RGB565 then .ok .RGB565
  else if value.raw = SDL_PixelFormat.BGR565 then .ok .BGR565
  else if value.raw = SDL_PixelFormat.RGB24 then .ok .RGB24
  else if value.raw = SDL_PixelFormat.BGR24 then .ok .BGR24
  else if value.raw = SDL_PixelFormat.XRGB8888 then .ok .XRGB8888
  else if value.raw = SDL_PixelFormat.RGBX8888 then .ok .RGBX8888
  else if value.raw = SDL_PixelFormat.XBGR8888 then .ok .XBGR8888
  else if value.raw = SDL_PixelFormat.BGRX8888 then .ok .BGRX8888
  else if value.raw = SDL_PixelFormat.ARGB8888 then .ok .ARGB8888
  else if value.raw = SDL_PixelFormat.RGBA8888 then .ok .RGBA8888
  else if value.raw = SDL_PixelFormat.ABGR8888 then .ok .ABGR8888
  else if value.raw = SDL_PixelFormat.BGRA8888 then .ok .BGRA8888
  else if value.raw = SDL_PixelFormat.ARGB2101010 then .ok .ARGB2101010
  else if value.raw = SDL_PixelFormat.YV12 then .ok .YV12
  else if value.raw = SDL_PixelFormat.IYUV then .ok .IYUV
  else if value.raw = SDL_PixelFormat.YUY2 then .ok .YUY2
  else if value.raw = SDL_PixelFormat.UYVY then .ok .UYVY
  else if value.raw = SDL_PixelFormat.YVYU then .ok .YVYU
  else .error "Unknown pixel format"

/-- `From<i64> for PixelFormat`: `try_into::<c_int>()` followed by
`expect`; the out-of-range abort is modelled as `none`, the in-range case
wraps the code unchanged. -/
def PixelFormat.from_i64 (format : Int) : Option PixelFormat :=
  if -2147483648 ≤ format ∧ format ≤ 2147483647 then
    some ⟨format⟩
  else
    none

/-! ### Color -/

/-- `pub struct Color { r, g, b, a: u8 }`; each channel is a `u8`,
modelled as `Fin 256`. -/
structure Color where
  r : Fin 256
  g : Fin 256
  b : Fin 256
  a : Fin 256
deriving DecidableEq, Repr

/-- `Color::RGBA(r, g, b, a)`. -/
def Color.RGBA (r g b a : Fin 256) : Color :=
  ⟨r, g, b, a⟩

/-- `Color::RGB(r, g, b)`: alpha is `0xff`. -/
def Color.RGB (r g b : Fin 256) : Color :=
  ⟨r, g, b, 255⟩

/-- `Color::invert`: `Color::RGBA(255 - r, 255 - g, 255 - b, 255 - a)`.
The `u8` subtractions cannot underflow since every channel is at most
255, so they are the plain natural-number differences. -/
def Color.invert (self : Color) : Color :=
  Color.RGBA ⟨255 - self.r.val, by omega⟩ ⟨255 - self.g.val, by omega⟩
    ⟨255 - self.b.val, by omega⟩ ⟨255 - self.a.val, by omega⟩

/-- The native `SDL_Color` record (four `u8` fields). -/
structure SDL_Color where
  r : Fin 256
  g : Fin 256
  b : Fin 256
  a : Fin 256
deriving DecidableEq, Repr

/-- `Color::raw`: field-for-field conversion into the native record. -/
def Color.raw (self : Color) : SDL_Color :=
  ⟨self.r, self.g, self.b, self.a⟩

/-! ### Palette

The native palette type and the three boundary calls used by
`Palette::new` / `Palette::with_colors` are not part of the translated
file; they are modelled from the specification. -/

/-- Modelled from the spec: the boundary's indexed color table — an
entry count (`ncolors`, a non-negative native int, here `Nat`) and the
entries themselves. -/
structure SDL_Palette where
  ncolors : Nat
  colors : List SDL_Color
deriving DecidableEq, Repr

/-- Modelled from the spec: `validate_int` from the crate's common module
(not among the provided sources).  Per the spec it checks that a 32-bit
unsigned count fits the boundary's signed 32-bit count, yielding the
value as a native int or a validation error. -/
def validate_int (value : Nat) (name : String) : Except String Int :=
  if value ≤ 2147483647 then
    .ok value
  else
    .error (name ++ " out of range")

/-- Modelled from the spec: the boundary op "create an indexed color
table of N entries".  Allocation may fail (a null result, modelled by the
`allocOk` oracle); on success the table has exactly `n` entries, whose
initial contents the spec leaves unspecified (a fixed fill here). -/
def SDL_CreatePalette (allocOk : Bool) (n : Nat) : Option SDL_Palette :=
  if allocOk then
    some ⟨n, List.replicate n ⟨255, 255, 255, 255⟩⟩
  else
    none

/-- Modelled from the spec: the boundary op "batch-set a contiguous run
of table entries" — writes `ncolors` entries starting at `firstcolor`,
reporting failure when the run does not fit the table. -/
def SDL_SetPaletteColors (palette : SDL_Palette) (entries : List SDL_Color)
    (firstcolor ncolors : Nat) : Bool × SDL_Palette :=
  if firstcolor + ncolors ≤ palette.ncolors ∧ ncolors = entries.length then
    (true,
      ⟨palette.ncolors,
        palette.colors.take firstcolor ++ entries
          ++ palette.colors.drop (firstcolor + ncolors)⟩)
  else
    (false, palette)

/-- `Palette::new(capacity)`: clamps a capacity above `u32::MAX` down to
`u32::MAX`, validates the clamped value via `validate_int`, then asks the
boundary for a table of that size; a null allocation becomes the
boundary's error. -/
def Palette.new (allocOk : Bool) (capacity : Nat) : Except String SDL_Palette :=
  let capacity := if capacity > 4294967295 then 4294967295 else capacity
  match validate_int capacity "capacity" with
  | .error e => .error e
  | .ok ncolors =>
    match SDL_CreatePalette allocOk ncolors.toNat with
    | none => .error "SDL_CreatePalette failed"
    | some raw => .ok raw

/-- `Palette::with_colors(colors)`: `new(colors.len())?`, then converts
the colors to native records, takes the address of the first converted
entry (`&mut raw_colors[0]` — an out-of-bounds panic on an empty slice,
modelled as the outer `none`), and batch-sets all entries starting at
index 0. -/
def Palette.with_colors (allocOk : Bool) (colors : List Color) :
    Option (Except String SDL_Palette) :=
  match Palette.new allocOk colors.length with
  | .error e => some (.error e)
  | .ok pal =>
    let ncolors := colors.length
    let raw_colors := colors.map Color.raw
    match raw_colors with
    | [] => none
    | _ =>
      let result := SDL_SetPaletteColors pal raw_colors 0 ncolors
      if result.1 then some (.ok result.2) else some (.error "SDL_SetPaletteColors failed")

/-- `Palette::len`: the table's reported entry count (`ncolors as usize`). -/
def Palette.len (self : SDL_Palette) : Nat :=
  self.ncolors

/-! ### Specification-side definitions

These definitions follow the words of the specification claims (as
amended where noted); the theorems below compare them with the
definitions translated from the source. -/

/-- Following the claim: the canonical (non-alias) variant of each
`PixelFormatEnum` variant — the identity except on the six pure aliases,
each mapped to the variant sharing its numeric code. -/
def Spec.canonical : PixelFormatEnum → PixelFormatEnum
  | .RGB444 => .XRGB4444
  | .BGR444 => .XBGR4444
  | .RGB555 => .XRGB1555
  | .BGR555 => .XBGR1555
  | .RGB888 => .XRGB8888
  | .BGR888 => .XBGR8888
  | v => v

/-- Following the claim: the variants whose name places alpha in the
channel layout. -/
def Spec.hasAlphaLayout : PixelFormatEnum → Bool
  | .ARGB4444 | .RGBA4444 | .ABGR4444 | .BGRA4444
  | .ARGB1555 | .RGBA5551 | .ABGR1555 | .BGRA5551
  | .ARGB8888 | .RGBA8888 | .ABGR8888 | .BGRA8888
  | .ARGB2101010 => true
  | _ => false

/-- Following the amended claim: the fixed per-format byte-size table for
n pixels, with `none` for the formats on which the code aborts (the
sub-byte indexed formats, the unknown format, and XBGR4444 together with
its alias BGR444, which the source's two-byte arm omits). -/
def Spec.byteSizeOfPixels : PixelFormatEnum → Nat → Option Nat
  | .Index8, n | .RGB332, n => some n
  | .XRGB4444, n | .RGB444, n | .XRGB1555, n | .RGB555, n
  | .XBGR1555, n | .BGR555, n
  | .ARGB4444, n | .RGBA4444, n | .ABGR4444, n | .BGRA4444, n
  | .ARGB1555, n | .RGBA5551, n | .ABGR1555, n | .BGRA5551, n
  | .RGB565, n | .BGR565, n => some (n * 2)
  | .RGB24, n | .BGR24, n => some (n * 3)
  | .XRGB8888, n | .RGB888, n | .RGBX8888, n | .XBGR8888, n | .BGR888, n
  | .BGRX8888, n | .ARGB8888, n | .RGBA8888, n | .ABGR8888, n
  | .BGRA8888, n | .ARGB2101010, n => some (n * 4)
  | .YV12, n | .IYUV, n => some (n / 2 * 3)
  | .YUY2, n | .UYVY, n | .YVYU, n => some (n * 2)
  | .Unknown, _ | .Index1LSB, _ | .Index1MSB, _ | .Index4LSB, _
  | .Index4MSB, _ | .XBGR4444, _ | .BGR444, _ => none

/-- Following the amended claim: the formats on which the byte-size
queries return a value rather than aborting. -/
def Spec.sizeSupported : PixelFormatEnum → Bool
  | .Unknown | .Index1LSB | .Index1MSB | .Index4LSB | .Index4MSB
  | .XBGR4444 | .BGR444 => false
  | _ => true

/-- Following the amended claim: the buffer-size formula with the chroma
term grouped left to right, `((pitch / 2) * height) / 2`. -/
def Spec.byteSizeFromPitchAndHeight (format : PixelFormat)
    (pitch height : Nat) : Nat :=
  if format.raw = SDL_PixelFormat.YV12 ∨ format.raw = SDL_PixelFormat.IYUV then
    pitch * height + 2 * (((pitch / 2) * height) / 2)
  else
    pitch * height

/-! ### Claim theorems -/

/-- C1 (counterexample): the claim states that for planar YUV formats the
result is `pitch * height + 2 * ((pitch / 2) * (height / 2))`, both
divisions applied individually before the multiplication; at pitch = 4,
height = 3 on YV12 the code returns 18 while that formula gives 16. -/
theorem byte_size_from_pitch_and_height_not_independent_halves :
    PixelFormat.byte_size_from_pitch_and_height ⟨SDL_PixelFormat.YV12⟩ 4 3
      ≠ 4 * 3 + 2 * ((4 / 2) * (3 / 2)) := by
  decide

/-- C1 (amended): for planar YUV formats (YV12, IYUV) the result is
`pitch * height + 2 * (((pitch / 2) * height) / 2)`, the source
expression evaluated left to right; for every other format it is
`pitch * height`. -/
theorem byte_size_from_pitch_and_height_eq_planar_formula
    (format : PixelFormat) (pitch height : Nat) :
    format.byte_size_from_pitch_and_height pitch height
      = Spec.byteSizeFromPitchAndHeight format pitch height :=
  rfl

/-- C2 (counterexample): the claim assigns `2 * n` to XBGR4444, but the
code aborts on it (the two-byte arm omits XBGR4444, so it falls into the
unsupported arm). -/
theorem byte_size_of_pixels_XBGR4444_not_two_bytes :
    PixelFormatEnum.XBGR4444.as_pixel_format.byte_size_of_pixels 10
      ≠ some (10 * 2) := by
  decide

/-- C2 (amended): `byte_size_of_pixels` follows the claimed fixed table,
except that XBGR4444 (and its alias BGR444) aborts instead of yielding
`2 * n`; the sub-byte indexed formats and the unknown format abort. -/
theorem byte_size_of_pixels_follows_table
    (v : PixelFormatEnum) (n : Nat) :
    v.as_pixel_format.byte_size_of_pixels n = Spec.byteSizeOfPixels v n := by
  cases v <;> rfl

/-- C3: converting each `PixelFormatEnum` variant to a `PixelFormat` and
back yields `Ok` of the variant itself, except for the six pure aliases,
which come back as the canonical variant sharing their numeric code. -/
theorem try_from_as_pixel_format_roundtrip (v : PixelFormatEnum) :
    PixelFormatEnum.try_from v.as_pixel_format = .ok (Spec.canonical v)
      ∧ (Spec.canonical v).code = v.code := by
  cases v <;> exact ⟨rfl, rfl⟩

/-- C4: `supports_alpha` is true on exactly the thirteen variants whose
name places alpha in the channel layout, and false on every other
variant, including all YUV and indexed formats. -/
theorem supports_alpha_iff_alpha_layout (v : PixelFormatEnum) :
    v.as_pixel_format.supports_alpha = Spec.hasAlphaLayout v := by
  cases v <;> rfl

/-- C5 (counterexample): the claim lists the 1-bit and 4-bit indexed
formats and the unknown format as the only aborting formats, but both
byte-size queries also abort on XBGR4444. -/
theorem byte_size_queries_abort_on_XBGR4444 :
    PixelFormatEnum.XBGR4444.as_pixel_format.byte_size_of_pixels 1 = none
      ∧ PixelFormatEnum.XBGR4444.as_pixel_format.byte_size_per_pixel = none := by
  decide

/-- C5 (amended): `byte_size_of_pixels` and `byte_size_per_pixel` abort
exactly on the unknown format, the 1-bit and 4-bit indexed formats, and
XBGR4444 (with its alias BGR444), and return a value on every other
variant. -/
theorem byte_size_queries_abort_exactly_on_unsupported
    (v : PixelFormatEnum) (n : Nat) :
    (v.as_pixel_format.byte_size_of_pixels n).isSome = Spec.sizeSupported v
      ∧ (v.as_pixel_format.byte_size_per_pixel).isSome = Spec.sizeSupported v := by
  cases v <;> exact ⟨rfl, rfl⟩

/-- C6: whenever the capacity clamped to `u32::MAX` still exceeds the
maximum 32-bit signed count, `Palette::new` returns the validation
error, regardless of whether the boundary allocation would succeed —
no crash path exists. -/
theorem palette_new_oversized_returns_validation_error
    (allocOk : Bool) (capacity : Nat)
    (h : 2147483647 < if capacity > 4294967295 then 4294967295 else capacity) :
    Palette.new allocOk capacity = .error "capacity out of range" := by
  have h' : ¬ ((if capacity > 4294967295 then 4294967295 else capacity) ≤ 2147483647) :=
    Nat.not_le.mpr h
  simp only [Palette.new, validate_int, if_neg h']
  rfl

/-- C6 (witness): a request of 2^31 colors exceeds the signed 32-bit
bound after (trivial) clamping and is rejected with the validation
error. -/
theorem palette_new_oversized_witness :
    (2147483647 < if 2147483648 > 4294967295 then 4294967295 else 2147483648)
      ∧ Palette.new true 2147483648 = .error "capacity out of range" :=
  ⟨by decide, palette_new_oversized_returns_validation_error true 2147483648 (by decide)⟩

/-- C7: when `Palette::with_colors` succeeds on a non-empty color list
whose length is within the signed 32-bit capacity ceiling, the
resulting palette reports exactly that many colors, and its entries are
the converted input colors, batch-set starting at index 0. -/
theorem with_colors_len_eq_length
    (allocOk : Bool) (colors : List Color) (pal : SDL_Palette)
    (hne : colors ≠ [])
    (hcap : colors.length ≤ 2147483647)
    (hok : Palette.with_colors allocOk colors = some (Except.ok pal)) :
    Palette.len pal = colors.length ∧ pal.colors = colors.map Color.raw := by
  cases colors with
  | nil => exact absurd rfl hne
  | cons c cs =>
    simp only [List.length_cons] at hcap
    have hnotbig : ¬ (4294967295 < cs.length + 1) := by omega
    cases allocOk with
    | false =>
      simp [Palette.with_colors, Palette.new, validate_int, SDL_CreatePalette,
        hnotbig, hcap] at hok
    | true =>
      simp only [Palette.with_colors, Palette.new, validate_int, SDL_CreatePalette,
        List.length_cons, if_neg hnotbig, if_pos hcap, if_true, Int.toNat_natCast,
        List.map_cons] at hok
      simp only [SDL_SetPaletteColors, List.length_cons, List.length_map,
        Nat.zero_add, Nat.le_refl, and_true, if_pos, List.take_zero,
        List.drop_replicate, Nat.sub_self, List.replicate_zero, List.append_nil,
        List.nil_append, true_and] at hok
      simp only [Option.some.injEq, Except.ok.injEq] at hok
      subst hok
      exact ⟨rfl, rfl⟩

/-- C7 (witness): a single-color list yields a palette of length one
whose sole entry is the converted color. -/
theorem with_colors_len_witness :
    Palette.len ⟨1, [⟨10, 20, 30, 255⟩]⟩ = 1
      ∧ (SDL_Palette.mk 1 [⟨10, 20, 30, 255⟩]).colors
          = [Color.RGB 10 20 30].map Color.raw := by
  have h := with_colors_len_eq_length true [Color.RGB 10 20 30]
    ⟨1, [⟨10, 20, 30, 255⟩]⟩ (by decide) (by decide) rfl
  exact ⟨h.1, h.2⟩

/-- C8: `invert` replaces every channel, alpha included, by 255 minus
its value, and is self-inverse. -/
theorem invert_pointwise_and_involutive (c : Color) :
    c.invert.r.val = 255 - c.r.val ∧ c.invert.g.val = 255 - c.g.val
      ∧ c.invert.b.val = 255 - c.b.val ∧ c.invert.a.val = 255 - c.a.val
      ∧ c.invert.invert = c := by
  obtain ⟨⟨r, hr⟩, ⟨g, hg⟩, ⟨b, hb⟩, ⟨a, ha⟩⟩ := c
  refine ⟨rfl, rfl, rfl, rfl, ?_⟩
  simp only [Color.invert, Color.RGBA, Color.mk.injEq]
  refine ⟨Fin.ext ?_, Fin.ext ?_, Fin.ext ?_, Fin.ext ?_⟩ <;> simp <;> omega

/-- C9: converting a raw 64-bit value into a `PixelFormat` wraps the
value unchanged when it fits the native 32-bit code width, and aborts
when it does not. -/
theorem from_i64_narrows_or_aborts (format : Int) :
    (-2147483648 ≤ format ∧ format ≤ 2147483647 →
      PixelFormat.from_i64 format = some ⟨format⟩)
      ∧ (¬ (-2147483648 ≤ format ∧ format ≤ 2147483647) →
        PixelFormat.from_i64 format = none) := by
  constructor <;> intro h <;> simp [PixelFormat.from_i64, h]

/-- C9 (witness): 5 fits a 32-bit code and is wrapped unchanged; 2^35 is
out of range and aborts. -/
theorem from_i64_witness :
    PixelFormat.from_i64 5 = some ⟨5⟩ ∧ PixelFormat.from_i64 34359738368 = none :=
  ⟨(from_i64_narrows_or_aborts 5).1 (by decide),
    (from_i64_narrows_or_aborts 34359738368).2 (by decide)⟩

/-- C10: on an empty color list, `with_colors` creates the
zero-capacity palette and then panics at the out-of-bounds index into
the empty converted buffer — it neither returns a result nor proceeds
to the batch-set call. -/
theorem with_colors_empty_panics :
    Palette.with_colors true [] = none :=
  rfl

end SDL3
